import Mathlib

/-!
Verification of the MongoDB connection lifecycle manager of `boishakh-auth`
(`src/lib/mongodb/config.ts` and `src/lib/mongodb/index.ts`).

The TypeScript module keeps three module-level state variables
(`isConnected`, `isConnecting`, `connectionPromise`) next to the driver's
global connection handle (`mongoose.connection`).  The embedding models the
module state explicitly, the driver handle as a record of the fields the
module reads (`readyState`, `host`, `port`, `name`, `models`, presence of
`db`), and each effectful primitive (`mongoose.connect`, `admin().ping()`,
`mongoose.disconnect`) as an oracle argument describing its outcome, so the
async functions become pure state transformers.  Single-threaded cooperative
scheduling means each exported function runs to its first `await` atomically,
which the transformer semantics captures.
-/

namespace BoishakhAuth

/-- Process environment variables read by `config.ts`. -/
structure Env where
  NODE_ENV : Option String := none
  MONGODB_URI : Option String := none
  MONGODB_DATABASE : Option String := none
  MONGODB_USERNAME : Option String := none
  MONGODB_PASSWORD : Option String := none
  MONGODB_TEST_DATABASE : Option String := none
  deriving DecidableEq

/-- Result record of `getMongoDBConfig` in `src/lib/mongodb/config.ts`. -/
structure MongoDBConfigFile where
  uri : String
  database : String
  username : Option String
  password : Option String
  retryAttempts : Nat
  retryDelayMs : Nat
  deriving DecidableEq

/-- `getMongoDBConfig` from `src/lib/mongodb/config.ts` (imported by
`index.ts` under the name `getConfigFromFile`): builds `baseConfig` from the
environment, then adjusts it per deployment mode. -/
def getConfigFromFile (env : Env) : MongoDBConfigFile :=
  let environment := env.NODE_ENV.getD "development"
  let baseConfig : MongoDBConfigFile :=
    { uri := env.MONGODB_URI.getD "mongodb://localhost:27017"
      database := env.MONGODB_DATABASE.getD "boishakh_auth"
      username := env.MONGODB_USERNAME
      password := env.MONGODB_PASSWORD
      retryAttempts := 3
      retryDelayMs := 1000 }
  if environment = "production" then
    { baseConfig with retryAttempts := 5, retryDelayMs := 2000 }
  else if environment = "testing" then
    { baseConfig with
        database :=
          env.MONGODB_TEST_DATABASE.getD
            (env.MONGODB_DATABASE.getD (baseConfig.database ++ "_test"))
        retryAttempts := 1
        retryDelayMs := 500 }
  else
    baseConfig

/-- The `MongoDBConfig` interface of `src/lib/mongodb/index.ts`.  The mongoose
`ConnectOptions` value is opaque driver data never inspected by the module's
control flow, so it is omitted.  `retryAttempts`/`retryDelayMs` are optional
exactly as in the interface; `attemptConnection` defaults them to 3 / 1000. -/
structure MongoDBConfig where
  uri : String
  retryAttempts : Option Nat := none
  retryDelayMs : Option Nat := none
  deriving DecidableEq

/-- The fields of the driver handle `mongoose.connection` that the module
reads: `readyState` (1 = connected, 0 = disconnected), identification fields,
and whether the optional `db` property is set (read through `db?.` in
`healthCheck`). -/
structure MongooseConnection where
  readyState : Nat
  host : String
  port : Nat
  name : String
  models : List String
  dbPresent : Bool
  deriving DecidableEq

/-- The three module-level state variables of `index.ts`:
`let isConnected = false; let isConnecting = false;
let connectionPromise: Promise<Connection> | null = null`.
The in-flight promise is modelled by an identifier. -/
structure ModuleState where
  isConnected : Bool
  isConnecting : Bool
  connectionPromise : Option Nat
  deriving DecidableEq

/-- Outcome of `attemptConnection`: a return of `mongoose.connection` from
within the loop (recording which attempt succeeded), the wrapped terminal
throw of the last attempt, or the trailing
`throw new Error('MongoDB connection failed')` placed after the loop. -/
inductive AttemptOutcome where
  | connected (attempt : Nat)
  | failed (msg : String)
  | trailing
  deriving DecidableEq

/-- Observable trace of one `attemptConnection` run: how many times the
underlying `mongoose.connect` primitive was invoked, the list of performed
`sleep` delays in order, and the outcome. -/
structure AttemptTrace where
  connectCalls : Nat
  sleeps : List Nat
  outcome : AttemptOutcome
  deriving DecidableEq

/-- The wrapped terminal error message built on the last failed attempt:
`` `MongoDB connection failed after ${retryAttempts} attempts: ${message}` ``. -/
def wrapMsg (retryAttempts : Nat) (msg : String) : String :=
  "MongoDB connection failed after " ++ toString retryAttempts ++
    " attempts: " ++ msg

/-- The `for (let attempt = 1; attempt <= retryAttempts; attempt++)` loop of
`attemptConnection`, run over the list of pending attempt numbers.
`connectFail k = none` means the `mongoose.connect` call of attempt `k`
succeeds; `some msg` means it throws an error with message `msg`.
The `[]` case is the trailing throw after the loop. -/
def attemptLoop (connectFail : Nat → Option String)
    (retryAttempts retryDelayMs : Nat) : List Nat → AttemptTrace
  | [] => { connectCalls := 0, sleeps := [], outcome := .trailing }
  | attempt :: rest =>
    match connectFail attempt with
    | none => { connectCalls := 1, sleeps := [], outcome := .connected attempt }
    | some msg =>
      if attempt = retryAttempts then
        { connectCalls := 1, sleeps := []
          outcome := .failed (wrapMsg retryAttempts msg) }
      else
        let t := attemptLoop connectFail retryAttempts retryDelayMs rest
        { connectCalls := t.connectCalls + 1
          sleeps := retryDelayMs :: t.sleeps
          outcome := t.outcome }

/-- `attemptConnection` of `index.ts`: destructures the config with defaults
`retryAttempts = 3`, `retryDelayMs = 1000` and runs the loop over attempts
`1..retryAttempts`. -/
def attemptConnection (connectFail : Nat → Option String)
    (config : MongoDBConfig) : AttemptTrace :=
  let retryAttempts := config.retryAttempts.getD 3
  let retryDelayMs := config.retryDelayMs.getD 1000
  attemptLoop connectFail retryAttempts retryDelayMs
    (List.range' 1 retryAttempts)

/-- What a call to `connectToMongoDB` evaluates to: the existing
`mongoose.connection` (first fast path), the in-flight promise identifier
(second fast path), or a freshly started `attemptConnection` with its trace. -/
inductive ConnectResult where
  | existing
  | inFlight (pid : Nat)
  | fresh (pid : Nat) (trace : AttemptTrace)
  deriving DecidableEq

/-- Number of `mongoose.connect` invocations a `connectToMongoDB` call
performed. -/
def ConnectResult.connectCalls : ConnectResult → Nat
  | .existing => 0
  | .inFlight _ => 0
  | .fresh _ t => t.connectCalls

/-- `connectToMongoDB` of `index.ts` as a state transformer.  `freshPid` is
the identity of the promise created by `attemptConnection(mongoConfig)` when a
new attempt is started.  Guard order follows the source: the
already-connected check (`isConnected && readyState === 1`) comes before the
in-progress check (`isConnecting && connectionPromise`). -/
def connectToMongoDB (cfg : MongoDBConfig) (connectFail : Nat → Option String)
    (freshPid : Nat) (conn : MongooseConnection) (st : ModuleState) :
    ConnectResult × ModuleState :=
  if st.isConnected = true ∧ conn.readyState = 1 then
    (.existing, st)
  else
    match st.isConnecting, st.connectionPromise with
    | true, some pid => (.inFlight pid, st)
    | _, _ =>
      let st1 : ModuleState :=
        { st with isConnecting := true, connectionPromise := some freshPid }
      let t := attemptConnection connectFail cfg
      match t.outcome with
      | .connected _ =>
        (.fresh freshPid t, { st1 with isConnected := true, isConnecting := false })
      | _ =>
        (.fresh freshPid t,
          { st1 with isConnecting := false, connectionPromise := none })

/-- `disconnectFromMongoDB` of `index.ts`.  `closeResult` is the outcome of
the `mongoose.disconnect()` primitive (`.error e` = it throws).  Returns the
call's outcome, the resulting module state, and whether the close primitive
was invoked.  The state assignments come after the `await`, so a throwing
close leaves the state untouched and the error is re-raised. -/
def disconnectFromMongoDB (st : ModuleState) (conn : MongooseConnection)
    (closeResult : Except String Unit) :
    Except String Unit × ModuleState × Bool :=
  if conn.readyState ≠ 0 then
    match closeResult with
    | .ok _ =>
      (.ok (), { st with isConnected := false, connectionPromise := none }, true)
    | .error e => (.error e, st, true)
  else
    (.ok (), st, false)

/-- `isMongoDBConnected` of `index.ts`:
`isConnected && mongoose.connection.readyState === 1`. -/
def isMongoDBConnected (st : ModuleState) (conn : MongooseConnection) : Bool :=
  st.isConnected && conn.readyState == 1

/-- Record returned by `getConnectionInfo`. -/
structure ConnectionInfo where
  isConnected : Bool
  readyState : Nat
  host : String
  port : Nat
  name : String
  models : List String
  deriving DecidableEq

/-- `getConnectionInfo` of `index.ts`: pure read of the status fields. -/
def getConnectionInfo (st : ModuleState) (conn : MongooseConnection) :
    ConnectionInfo :=
  { isConnected := isMongoDBConnected st conn
    readyState := conn.readyState
    host := conn.host
    port := conn.port
    name := conn.name
    models := conn.models }

/-- The `'connected'` lifecycle observer of `setupConnectionListeners`. -/
def onConnected (st : ModuleState) : ModuleState :=
  { st with isConnected := true }

/-- The `'error'` lifecycle observer of `setupConnectionListeners`: logs and
then executes `isConnected = false`. -/
def onError (st : ModuleState) : ModuleState :=
  { st with isConnected := false }

/-- The `'disconnected'` lifecycle observer of `setupConnectionListeners`. -/
def onDisconnected (st : ModuleState) : ModuleState :=
  { st with isConnected := false }

/-- The `'reconnected'` lifecycle observer of `setupConnectionListeners`. -/
def onReconnected (st : ModuleState) : ModuleState :=
  { st with isConnected := true }

/-- The `details` record of a health-check result: the connection info plus
whichever of the `ping` / `reason` / `error` keys the taken branch adds. -/
structure HealthDetails where
  connection : ConnectionInfo
  ping : Option String := none
  reason : Option String := none
  error : Option String := none
  deriving DecidableEq

/-- Result shape of `healthCheck`: `status` is the literal string union
`'healthy' | 'unhealthy'` of the source. -/
structure HealthCheckResult where
  status : String
  details : HealthDetails
  deriving DecidableEq

/-- `healthCheck` of `index.ts`.  `pingResult` is the outcome of the
`admin().ping()` primitive (`some m` = it throws with message `m`); the ping
expression is `mongoose.connection.db?.admin().ping()`, so when `db` is
absent the optional chaining short-circuits and no ping is issued.  The
second component records whether the ping primitive was invoked.  The
enclosing try/catch turns a ping throw into the unhealthy result, so the
function always returns a result and never raises. -/
def healthCheck (st : ModuleState) (conn : MongooseConnection)
    (pingResult : Option String) : HealthCheckResult × Bool :=
  let isHealthy := isMongoDBConnected st conn
  let connectionInfo := getConnectionInfo st conn
  if isHealthy then
    if conn.dbPresent then
      match pingResult with
      | none =>
        ({ status := "healthy"
           details := { connection := connectionInfo, ping := some "successful" } },
         true)
      | some m =>
        ({ status := "unhealthy"
           details := { connection := getConnectionInfo st conn, error := some m } },
         true)
    else
      ({ status := "healthy"
         details := { connection := connectionInfo, ping := some "successful" } },
       false)
  else
    ({ status := "unhealthy"
       details := { connection := connectionInfo
                    reason := some "Not connected to database" } },
     false)

/-- `sub` occurs as a contiguous substring of `s`. -/
def occursIn (sub s : String) : Prop :=
  ∃ a b : List Char, s.data = a ++ sub.data ++ b

/-! ## Lemmas about the retry loop -/

/-- One loop iteration whose connect call succeeds returns immediately. -/
theorem attemptLoop_cons_ok {connectFail : Nat → Option String}
    {N D attempt : Nat} {rest : List Nat} (h : connectFail attempt = none) :
    attemptLoop connectFail N D (attempt :: rest) =
      { connectCalls := 1, sleeps := [], outcome := .connected attempt } := by
  simp [attemptLoop, h]

/-- The final loop iteration whose connect call fails throws the wrapped
error. -/
theorem attemptLoop_cons_last {connectFail : Nat → Option String}
    {N D : Nat} {rest : List Nat} {msg : String}
    (h : connectFail N = some msg) :
    attemptLoop connectFail N D (N :: rest) =
      { connectCalls := 1, sleeps := []
        outcome := .failed (wrapMsg N msg) } := by
  simp [attemptLoop, h]

/-- A non-final loop iteration whose connect call fails sleeps `D` and
continues with the rest of the attempts. -/
theorem attemptLoop_cons_fail {connectFail : Nat → Option String}
    {N D attempt : Nat} {rest : List Nat} {msg : String}
    (h : connectFail attempt = some msg) (hne : ¬(attempt = N)) :
    attemptLoop connectFail N D (attempt :: rest) =
      { connectCalls := (attemptLoop connectFail N D rest).connectCalls + 1
        sleeps := D :: (attemptLoop connectFail N D rest).sleeps
        outcome := (attemptLoop connectFail N D rest).outcome } := by
  simp [attemptLoop, h, hne]

/-- When every `mongoose.connect` call fails, running the loop over the
attempt numbers `a, a+1, …, N` (so `a + n = N + 1`, `n ≥ 1` attempts left)
performs exactly `n` connect calls, sleeps `n - 1` times the fixed delay, and
throws the wrapped error built from attempt `N`'s failure message. -/
theorem attemptLoop_allFail (connectFail : Nat → Option String) (N D : Nat)
    (hfail : ∀ k, ∃ m, connectFail k = some m) :
    ∀ n a, a + n = N + 1 → 1 ≤ n →
      ∃ m, connectFail N = some m ∧
        attemptLoop connectFail N D (List.range' a n) =
          { connectCalls := n, sleeps := List.replicate (n - 1) D
            outcome := .failed (wrapMsg N m) } := by
  intro n
  induction n with
  | zero => intro a _ h; omega
  | succ n ih =>
    intro a ha _
    obtain ⟨ma, hma⟩ := hfail a
    rw [List.range'_succ]
    by_cases hn : n = 0
    · subst hn
      have haN : a = N := by omega
      subst haN
      exact ⟨ma, hma, by rw [attemptLoop_cons_last hma]; rfl⟩
    · have haN : ¬(a = N) := by omega
      obtain ⟨n', rfl⟩ : ∃ n', n = n' + 1 := ⟨n - 1, by omega⟩
      obtain ⟨m, hm, hrec⟩ := ih (a + 1) (by omega) (by omega)
      refine ⟨m, hm, ?_⟩
      rw [attemptLoop_cons_fail hma haN, hrec]
      simp [List.replicate_succ]

/-- For an arbitrary connect oracle, running the loop over the attempt
numbers `a, …, N` ends either in a successful return from some attempt whose
connect call succeeded, or in the wrapped error built from attempt `N`'s
failure message — never in the trailing throw. -/
theorem attemptLoop_outcomes (connectFail : Nat → Option String) (N D : Nat) :
    ∀ n a, a + n = N + 1 → 1 ≤ n →
      (∃ k, (attemptLoop connectFail N D (List.range' a n)).outcome =
          .connected k ∧ connectFail k = none) ∨
      (∃ m, (attemptLoop connectFail N D (List.range' a n)).outcome =
          .failed (wrapMsg N m) ∧ connectFail N = some m) := by
  intro n
  induction n with
  | zero => intro a _ h; omega
  | succ n ih =>
    intro a ha _
    rw [List.range'_succ]
    rcases hca : connectFail a with _ | ma
    · exact .inl ⟨a, by rw [attemptLoop_cons_ok hca], hca⟩
    · by_cases hn : n = 0
      · subst hn
        have haN : a = N := by omega
        subst haN
        exact .inr ⟨ma, by rw [attemptLoop_cons_last hca], hca⟩
      · have haN : ¬(a = N) := by omega
        rw [attemptLoop_cons_fail hca haN]
        exact ih (a + 1) (by omega) (by omega)

/-! ## Claims -/

/-- C1: for every configured `retryAttempts = N ≥ 1` and `retryDelayMs = D`,
if the connect primitive fails on every attempt, `attemptConnection` performs
exactly `N` connect calls, sleeps the fixed delay `D` exactly `N - 1` times
(between consecutive attempts, never after the last), and throws the wrapped
error whose message contains the attempt count `N` and the root-cause message
of the last (`N`-th) failure. -/
theorem c1_retry_exhaustion (connectFail : Nat → Option String)
    (cfg : MongoDBConfig) (N D : Nat)
    (hN : cfg.retryAttempts = some N) (hD : cfg.retryDelayMs = some D)
    (hpos : 1 ≤ N) (hfail : ∀ k, ∃ m, connectFail k = some m) :
    ∃ m, connectFail N = some m ∧
      attemptConnection connectFail cfg =
        { connectCalls := N, sleeps := List.replicate (N - 1) D
          outcome := .failed (wrapMsg N m) } ∧
      occursIn (toString N) (wrapMsg N m) ∧ occursIn m (wrapMsg N m) := by
  obtain ⟨m, hm, hloop⟩ :=
    attemptLoop_allFail connectFail N D hfail N 1 (by omega) hpos
  refine ⟨m, hm, ?_, ?_, ?_⟩
  · simpa [attemptConnection, hN, hD] using hloop
  · exact ⟨("MongoDB connection failed after ").data,
      (" attempts: " ++ m).data, by simp [wrapMsg]⟩
  · exact ⟨("MongoDB connection failed after " ++ toString N ++
      " attempts: ").data, [], by simp [wrapMsg]⟩

/-- Witness for C1 at `N = 2`, `D = 100`, with a connect primitive that
throws `"boom"` on every attempt. -/
theorem c1_retry_exhaustion_witness :
    ∃ m, (fun _ : Nat => some "boom") 2 = some m ∧
      attemptConnection (fun _ : Nat => some "boom")
          { uri := "mongodb://localhost:27017"
            retryAttempts := some 2, retryDelayMs := some 100 } =
        { connectCalls := 2, sleeps := List.replicate 1 100
          outcome := .failed (wrapMsg 2 m) } ∧
      occursIn (toString 2) (wrapMsg 2 m) ∧ occursIn m (wrapMsg 2 m) :=
  c1_retry_exhaustion (fun _ => some "boom") _ 2 100 rfl rfl (by omega)
    (fun _ => ⟨"boom", rfl⟩)

/-- C9: under `retryAttempts = N ≥ 1` the trailing
`throw new Error('MongoDB connection failed')` after the loop is unreachable:
every run of `attemptConnection` either returns the connection from some
attempt whose connect call succeeded, or throws the wrapped error of the
final attempt — exactly those two outcomes. -/
theorem c9_trailing_throw_unreachable (connectFail : Nat → Option String)
    (cfg : MongoDBConfig) (N : Nat)
    (hN : cfg.retryAttempts = some N) (hpos : 1 ≤ N) :
    (attemptConnection connectFail cfg).outcome ≠ .trailing ∧
    ((∃ k, (attemptConnection connectFail cfg).outcome = .connected k ∧
        connectFail k = none) ∨
     (∃ m, (attemptConnection connectFail cfg).outcome = .failed (wrapMsg N m) ∧
        connectFail N = some m)) := by
  have heq : attemptConnection connectFail cfg =
      attemptLoop connectFail N (cfg.retryDelayMs.getD 1000)
        (List.range' 1 N) := by
    simp [attemptConnection, hN]
  have h := attemptLoop_outcomes connectFail N (cfg.retryDelayMs.getD 1000)
    N 1 (by omega) hpos
  rw [heq]
  rcases h with ⟨k, hk, hck⟩ | ⟨m, hm, hcm⟩
  · exact ⟨by rw [hk]; simp, .inl ⟨k, hk, hck⟩⟩
  · exact ⟨by rw [hm]; simp, .inr ⟨m, hm, hcm⟩⟩

/-- Witness for C9 at `N = 1` with a connect primitive that succeeds. -/
theorem c9_trailing_throw_unreachable_witness :
    (attemptConnection (fun _ : Nat => none)
        { uri := "u", retryAttempts := some 1 }).outcome ≠ .trailing ∧
    ((∃ k, (attemptConnection (fun _ : Nat => none)
          { uri := "u", retryAttempts := some 1 }).outcome = .connected k ∧
        (fun _ : Nat => (none : Option String)) k = none) ∨
     (∃ m, (attemptConnection (fun _ : Nat => none)
          { uri := "u", retryAttempts := some 1 }).outcome =
            .failed (wrapMsg 1 m) ∧
        (fun _ : Nat => (none : Option String)) 1 = some m)) :=
  c9_trailing_throw_unreachable (fun _ => none) _ 1 rfl (by omega)

/-! ## Concrete states used by witnesses and counterexamples -/

/-- A driver handle reporting ready state 1 (connected) with `db` set. -/
def connReady : MongooseConnection :=
  { readyState := 1, host := "localhost", port := 27017, name := "app"
    models := [], dbPresent := true }

/-- A driver handle reporting ready state 1 but with the optional `db`
property absent. -/
def connReadyNoDb : MongooseConnection :=
  { readyState := 1, host := "localhost", port := 27017, name := "app"
    models := [], dbPresent := false }

/-- A driver handle reporting ready state 0 (disconnected). -/
def connDown : MongooseConnection :=
  { readyState := 0, host := "localhost", port := 27017, name := "app"
    models := [], dbPresent := false }

/-- Module state with all three variables at their initial values. -/
def stDisc : ModuleState :=
  { isConnected := false, isConnecting := false, connectionPromise := none }

/-- Module state with only the connected flag set. -/
def stFlagged : ModuleState :=
  { isConnected := true, isConnecting := false, connectionPromise := none }

/-- Module state with an in-flight connection attempt (promise id 7). -/
def stInFlight : ModuleState :=
  { isConnected := false, isConnecting := true, connectionPromise := some 7 }

/-- Module state that is simultaneously connecting (promise id 7) and marked
connected — reached when the `'connected'` listener fires while
`connectToMongoDB` is still awaiting its own `attemptConnection` promise. -/
def stBoth : ModuleState :=
  { isConnected := true, isConnecting := true, connectionPromise := some 7 }

/-- A config with no retry overrides. -/
def cfgBasic : MongoDBConfig := { uri := "mongodb://localhost:27017" }

/-- A config with 2 retry attempts and a 100 ms delay. -/
def cfgRetry2 : MongoDBConfig :=
  { uri := "mongodb://localhost:27017"
    retryAttempts := some 2, retryDelayMs := some 100 }

/-- Environment of a testing deployment whose base database name is set to
`app` through `MONGODB_DATABASE`, with no test-specific override. -/
def envC3 : Env := { NODE_ENV := some "testing", MONGODB_DATABASE := some "app" }

/-- Environment of a testing deployment with no database variables at all. -/
def envTestOnly : Env := { NODE_ENV := some "testing" }

/-! ## Claims (continued) -/

/-- C2 (counterexample): in the state where `isConnecting` is true with
in-flight promise 7 but the connected fast path also applies
(`isConnected` true and ready state 1), `connectToMongoDB` returns the
existing connection, not the in-flight promise — refuting the claim that
*every* call in an `isConnecting`/non-null-promise state returns that exact
promise. -/
theorem c2_counterexample :
    stBoth.isConnecting = true ∧ stBoth.connectionPromise = some 7 ∧
    (connectToMongoDB cfgBasic (fun _ => some "boom") 9 connReady stBoth).1 ≠
      .inFlight 7 := by
  refine ⟨rfl, rfl, ?_⟩
  decide

/-- C2 (amended): whenever `isConnecting` is true and the in-flight promise
is non-null, `connectToMongoDB` performs no underlying connect call and
leaves the state unchanged; and if additionally the already-connected fast
path does not apply, it returns that exact in-flight promise — so concurrent
callers share the single in-flight attempt. -/
theorem c2_in_flight_dedup (cfg : MongoDBConfig)
    (connectFail : Nat → Option String) (freshPid : Nat)
    (conn : MongooseConnection) (st : ModuleState) (p : Nat)
    (hc : st.isConnecting = true) (hp : st.connectionPromise = some p) :
    (connectToMongoDB cfg connectFail freshPid conn st).2 = st ∧
    ((connectToMongoDB cfg connectFail freshPid conn st).1).connectCalls = 0 ∧
    (¬(st.isConnected = true ∧ conn.readyState = 1) →
      (connectToMongoDB cfg connectFail freshPid conn st).1 = .inFlight p) := by
  by_cases h1 : st.isConnected = true ∧ conn.readyState = 1
  · have he : connectToMongoDB cfg connectFail freshPid conn st =
        (.existing, st) := by
      simp only [connectToMongoDB, if_pos h1]
    rw [he]
    exact ⟨rfl, rfl, fun hcon => absurd h1 hcon⟩
  · have he : connectToMongoDB cfg connectFail freshPid conn st =
        (.inFlight p, st) := by
      simp only [connectToMongoDB, if_neg h1, hc, hp]
    rw [he]
    exact ⟨rfl, rfl, fun _ => rfl⟩

/-- Witness for C2 (amended) in the in-flight state with a disconnected
driver handle. -/
theorem c2_in_flight_dedup_witness :
    (connectToMongoDB cfgBasic (fun _ => some "boom") 9 connDown stInFlight).2 =
      stInFlight ∧
    ((connectToMongoDB cfgBasic (fun _ => some "boom") 9 connDown
        stInFlight).1).connectCalls = 0 ∧
    (¬(stInFlight.isConnected = true ∧ connDown.readyState = 1) →
      (connectToMongoDB cfgBasic (fun _ => some "boom") 9 connDown
        stInFlight).1 = .inFlight 7) :=
  c2_in_flight_dedup cfgBasic (fun _ => some "boom") 9 connDown stInFlight 7
    rfl rfl

/-- C3 (counterexample): in testing mode with base database name `app`
(via `MONGODB_DATABASE`) and no test-specific override, the resolver returns
database name `app`, not `app_test`. -/
theorem c3_counterexample :
    (getConfigFromFile envC3).database = "app" ∧
    ¬((getConfigFromFile envC3).database = "app_test") := by
  exact ⟨rfl, by decide⟩

/-- C3 (amended): in testing mode with no test-specific override the config
resolver returns retry attempts 1 and retry delay 500 ms, and the resolved
database name is `MONGODB_DATABASE` itself when that variable is set; the
`_test` suffix is appended only to the built-in default base name
`boishakh_auth` when `MONGODB_DATABASE` is also absent. -/
theorem c3_testing_mode_config (env : Env)
    (henv : env.NODE_ENV = some "testing")
    (hto : env.MONGODB_TEST_DATABASE = none) :
    (getConfigFromFile env).retryAttempts = 1 ∧
    (getConfigFromFile env).retryDelayMs = 500 ∧
    (getConfigFromFile env).database =
      (match env.MONGODB_DATABASE with
       | some d => d
       | none => "boishakh_auth_test") := by
  cases hdb : env.MONGODB_DATABASE with
  | none =>
    refine ⟨?_, ?_, ?_⟩ <;> simp [getConfigFromFile, henv, hto, hdb]
  | some d =>
    refine ⟨?_, ?_, ?_⟩ <;> simp [getConfigFromFile, henv, hto, hdb]

/-- Witness for C3 (amended) on a testing environment with no database
variables: the resolved name is the suffixed default. -/
theorem c3_testing_mode_config_witness :
    (getConfigFromFile envTestOnly).retryAttempts = 1 ∧
    (getConfigFromFile envTestOnly).retryDelayMs = 500 ∧
    (getConfigFromFile envTestOnly).database =
      (match envTestOnly.MONGODB_DATABASE with
       | some d => d
       | none => "boishakh_auth_test") :=
  c3_testing_mode_config envTestOnly rfl rfl

/-- C4 (counterexample): firing the `'error'` observer on a state whose
connected flag is true changes the flag — refuting the claim that the error
observer leaves the flag unchanged. -/
theorem c4_counterexample :
    ¬((onError stFlagged).isConnected = stFlagged.isConnected) := by
  decide

/-- C4 (amended): the `'error'` observer always sets the connected flag to
false; its effect on the module state is identical to that of the
`'disconnected'` observer. -/
theorem c4_on_error_clears_flag (st : ModuleState) :
    (onError st).isConnected = false ∧ onError st = onDisconnected st :=
  ⟨rfl, rfl⟩

/-- C5: `healthCheck` always returns a result whose status is `healthy` or
`unhealthy` and never raises: disconnected states yield `unhealthy` with the
not-connected reason, a connected state with a succeeding ping yields
`healthy` with ping `successful`, and a connected state whose ping throws
yields `unhealthy` carrying the error message. -/
theorem c5_health_check_total (st : ModuleState) (conn : MongooseConnection)
    (pingResult : Option String) :
    ((healthCheck st conn pingResult).1.status = "healthy" ∨
      (healthCheck st conn pingResult).1.status = "unhealthy") ∧
    (isMongoDBConnected st conn = false →
      (healthCheck st conn pingResult).1.status = "unhealthy" ∧
      (healthCheck st conn pingResult).1.details.reason =
        some "Not connected to database") ∧
    (isMongoDBConnected st conn = true → pingResult = none →
      (healthCheck st conn pingResult).1.status = "healthy" ∧
      (healthCheck st conn pingResult).1.details.ping = some "successful") ∧
    (∀ m, isMongoDBConnected st conn = true → conn.dbPresent = true →
      pingResult = some m →
      (healthCheck st conn pingResult).1.status = "unhealthy" ∧
      (healthCheck st conn pingResult).1.details.error = some m) := by
  cases h : isMongoDBConnected st conn with
  | false => simp [healthCheck, h]
  | true =>
    cases hdb : conn.dbPresent with
    | false => cases pingResult <;> simp [healthCheck, h, hdb]
    | true => cases pingResult <;> simp [healthCheck, h, hdb]

/-- Witness for C5 on the initial (disconnected) state. -/
theorem c5_health_check_total_witness :
    (healthCheck stDisc connDown none).1.status = "unhealthy" ∧
    (healthCheck stDisc connDown none).1.details.reason =
      some "Not connected to database" :=
  (c5_health_check_total stDisc connDown none).2.1 rfl

/-- From a state that is neither connected (fast path inapplicable) nor
connecting, `connectToMongoDB` always starts a fresh `attemptConnection`. -/
theorem connectToMongoDB_starts_fresh (cfg : MongoDBConfig)
    (connectFail : Nat → Option String) (freshPid : Nat)
    (conn : MongooseConnection) (st : ModuleState)
    (h1 : ¬(st.isConnected = true ∧ conn.readyState = 1))
    (h2 : st.isConnecting = false) :
    (connectToMongoDB cfg connectFail freshPid conn st).1 =
      .fresh freshPid (attemptConnection connectFail cfg) := by
  rcases st with ⟨sc, sg, sp⟩
  have hg : sg = false := h2
  subst hg
  cases sp with
  | none =>
    simp only [connectToMongoDB, if_neg h1]
    cases houtcome : (attemptConnection connectFail cfg).outcome <;>
      simp [houtcome]
  | some q =>
    simp only [connectToMongoDB, if_neg h1]
    cases houtcome : (attemptConnection connectFail cfg).outcome <;>
      simp [houtcome]

/-- C6: when the state is neither connected (fast path inapplicable) nor
connecting and every attempt fails, `connectToMongoDB` evaluates to the
freshly started attempt's terminal wrapped failure, and afterwards
`isConnecting` is false and the in-flight promise is null, so any subsequent
call starts a fresh attempt. -/
theorem c6_exhaustion_resets_state (cfg : MongoDBConfig)
    (connectFail : Nat → Option String) (freshPid : Nat)
    (conn : MongooseConnection) (st : ModuleState) (N D : Nat)
    (h1 : ¬(st.isConnected = true ∧ conn.readyState = 1))
    (h2 : st.isConnecting = false)
    (hN : cfg.retryAttempts = some N) (hD : cfg.retryDelayMs = some D)
    (hpos : 1 ≤ N) (hfail : ∀ k, ∃ m, connectFail k = some m) :
    ∃ m, connectFail N = some m ∧
      connectToMongoDB cfg connectFail freshPid conn st =
        (.fresh freshPid
          { connectCalls := N, sleeps := List.replicate (N - 1) D
            outcome := .failed (wrapMsg N m) },
         { st with isConnecting := false, connectionPromise := none }) ∧
      (∀ connectFail2 freshPid2, ∃ t2,
        (connectToMongoDB cfg connectFail2 freshPid2 conn
          { st with isConnecting := false, connectionPromise := none }).1 =
          .fresh freshPid2 t2) := by
  obtain ⟨m, hm, hloop⟩ :=
    attemptLoop_allFail connectFail N D hfail N 1 (by omega) hpos
  have hatt : attemptConnection connectFail cfg =
      { connectCalls := N, sleeps := List.replicate (N - 1) D
        outcome := .failed (wrapMsg N m) } := by
    simpa [attemptConnection, hN, hD] using hloop
  rcases st with ⟨sc, sg, sp⟩
  have hg : sg = false := h2
  subst hg
  refine ⟨m, hm, ?_, ?_⟩
  · cases sp with
    | none => simp only [connectToMongoDB, if_neg h1, hatt]
    | some q => simp only [connectToMongoDB, if_neg h1, hatt]
  · intro connectFail2 freshPid2
    exact ⟨attemptConnection connectFail2 cfg,
      connectToMongoDB_starts_fresh cfg connectFail2 freshPid2 conn _ h1 rfl⟩

/-- Witness for C6 from the initial state with 2 always-failing attempts. -/
theorem c6_exhaustion_resets_state_witness :
    ∃ m, (fun _ : Nat => some "boom") 2 = some m ∧
      connectToMongoDB cfgRetry2 (fun _ => some "boom") 5 connDown stDisc =
        (.fresh 5
          { connectCalls := 2, sleeps := List.replicate 1 100
            outcome := .failed (wrapMsg 2 m) },
         { stDisc with isConnecting := false, connectionPromise := none }) ∧
      (∀ connectFail2 freshPid2, ∃ t2,
        (connectToMongoDB cfgRetry2 connectFail2 freshPid2 connDown
          { stDisc with isConnecting := false, connectionPromise := none }).1 =
          .fresh freshPid2 t2) :=
  c6_exhaustion_resets_state cfgRetry2 (fun _ => some "boom") 5 connDown
    stDisc 2 100 (by decide) rfl rfl rfl (by omega) (fun _ => ⟨"boom", rfl⟩)

/-- C7: `disconnectFromMongoDB` is a no-op when the driver handle already
reports ready state 0 — it succeeds, does not invoke the close primitive and
leaves the state unchanged; otherwise, when the close primitive succeeds, it
invokes it, clears the connected flag and clears the in-flight promise. -/
theorem c7_disconnect_spec (st : ModuleState) (conn : MongooseConnection)
    (closeResult : Except String Unit) :
    (conn.readyState = 0 →
      disconnectFromMongoDB st conn closeResult = (.ok (), st, false)) ∧
    (¬(conn.readyState = 0) → closeResult = .ok () →
      disconnectFromMongoDB st conn closeResult =
        (.ok (), { st with isConnected := false, connectionPromise := none },
         true)) := by
  constructor
  · intro h0
    simp [disconnectFromMongoDB, h0]
  · intro h0 hc
    subst hc
    simp [disconnectFromMongoDB, h0]

/-- Witness for C7: disconnecting with a ready-state-0 handle is a no-op even
when the connected flag is still set. -/
theorem c7_disconnect_spec_witness :
    disconnectFromMongoDB stFlagged connDown (.ok ()) =
      (.ok (), stFlagged, false) :=
  (c7_disconnect_spec stFlagged connDown (.ok ())).1 rfl

/-- C8: when the connected flag is set and the ready state is 1 but the
driver handle's optional `db` property is absent, `healthCheck` skips the
ping through the optional chaining and still reports `healthy` with ping
`successful` — for any behaviour of the ping primitive. -/
theorem c8_health_check_no_db (st : ModuleState) (conn : MongooseConnection)
    (pingResult : Option String)
    (hc : st.isConnected = true) (hr : conn.readyState = 1)
    (hdb : conn.dbPresent = false) :
    (healthCheck st conn pingResult).1.status = "healthy" ∧
    (healthCheck st conn pingResult).1.details.ping = some "successful" ∧
    (healthCheck st conn pingResult).2 = false := by
  have h : isMongoDBConnected st conn = true := by
    simp [isMongoDBConnected, hc, hr]
  simp [healthCheck, h, hdb]

/-- Witness for C8 with a ping primitive that would throw if it were ever
invoked. -/
theorem c8_health_check_no_db_witness :
    (healthCheck stFlagged connReadyNoDb (some "ping exploded")).1.status =
      "healthy" ∧
    (healthCheck stFlagged connReadyNoDb (some "ping exploded")).1.details.ping =
      some "successful" ∧
    (healthCheck stFlagged connReadyNoDb (some "ping exploded")).2 = false :=
  c8_health_check_no_db stFlagged connReadyNoDb (some "ping exploded")
    rfl rfl rfl

/-- C10: when the close primitive throws, `disconnectFromMongoDB` re-raises
that error and leaves the module state exactly as it was — the flag- and
promise-clearing assignments only run after a successful close. -/
theorem c10_disconnect_failure_atomic (st : ModuleState)
    (conn : MongooseConnection) (e : String)
    (h : ¬(conn.readyState = 0)) :
    disconnectFromMongoDB st conn (.error e) = (.error e, st, true) := by
  simp [disconnectFromMongoDB, h]

/-- Witness for C10 on a connected handle whose close throws. -/
theorem c10_disconnect_failure_atomic_witness :
    disconnectFromMongoDB stFlagged connReady (.error "close failed") =
      (.error "close failed", stFlagged, true) :=
  c10_disconnect_failure_atomic stFlagged connReady "close failed" (by decide)

end BoishakhAuth
